import Mathlib

/-!
Verification of the npm-registry MCP server (src/index.ts) against its
natural-language specification.

The TypeScript handlers are shallowly embedded as pure Lean functions.
The network is modelled by a `World : String → FetchOutcome` oracle mapping
a request URL to its outcome; each handler is a deterministic function of
the world and its arguments, which is faithful because the handlers share
no mutable state and each item's result depends only on its own fetches.
JavaScript numbers are modelled as exact rationals (all JSON numerals are
rationals; double rounding is abstracted away), and JSON payloads by the
`Json` inductive below.
-/

/-- JSON values, used both for upstream response bodies and tool arguments. -/
inductive Json where
  | null
  | bool (b : Bool)
  | num (q : ℚ)
  | str (s : String)
  | arr (elems : List Json)
  | obj (fields : List (String × Json))

namespace Json

/-- Field lookup on an object; `none` plays the role of JS `undefined`
(missing property, or property access on a non-object). -/
def getField : Json → String → Option Json
  | .obj fs, k => fs.lookup k
  | _, _ => none

/-- JS `typeof x === 'object' && x !== null` (arrays are objects in JS). -/
def isObjectLike : Json → Bool
  | .obj _ => true
  | .arr _ => true
  | _ => false

end Json

/-- JS truthiness of a value. -/
def jsTruthy : Json → Bool
  | .null => false
  | .bool b => b
  | .num q => decide (q ≠ 0)
  | .str s => decide (s ≠ "")
  | .arr _ => true
  | .obj _ => true

/-- JS truthiness where `none` is `undefined`. -/
def jsTruthyOpt : Option Json → Bool
  | none => false
  | some j => jsTruthy j

/-- JS string coercion (template-literal interpolation). Integral numbers
print as integers; non-integral rationals are abstracted by Lean's rational
printer (never reached by the claims, which only interpolate strings and
integers). -/
def jsDisplay : Json → String
  | .null => "null"
  | .bool b => if b then "true" else "false"
  | .num q => if q.den = 1 then toString q.num else toString q
  | .str s => s
  | .arr xs => String.intercalate "," (xs.map fun j =>
      match j with
      | .str s => s
      | .num q => if q.den = 1 then toString q.num else toString q
      | _ => "")
  | .obj _ => "[object Object]"

/-- JS string coercion where `none` is `undefined`. -/
def jsDisplayOpt : Option Json → String
  | none => "undefined"
  | some j => jsDisplay j

/-- Embedding of a JS template interpolation `${v || 'dflt'}`. -/
def jsOr (v : Option Json) (dflt : String) : String :=
  if jsTruthyOpt v then jsDisplayOpt v else dflt

/-- JS `a || b` on two possibly-undefined values. -/
def jsOrJson (a b : Option Json) : Option Json :=
  if jsTruthyOpt a then a else b

/-- JS `String.prototype.replace` with a string pattern replaces only the
first occurrence. -/
def jsReplaceFirst (s pat repl : String) : String :=
  match s.splitOn pat with
  | [] => s
  | [_] => s
  | p :: rest => p ++ repl ++ String.intercalate pat rest

/-- JS `Math.round`: round half toward positive infinity,
`Math.round(x) = floor(x + 1/2)`. -/
def jsMathRound (q : ℚ) : ℤ := Rat.floor (q + 1/2)

/-- `jsMathRound` is the mathematical floor of `q + 1/2`. -/
theorem jsMathRound_eq_floor (q : ℚ) : jsMathRound q = ⌊q + 1/2⌋ := by
  unfold jsMathRound
  rw [Rat.floor_def', ← Rat.floor_def]

/-- Digit grouping used by `Number.prototype.toLocaleString` under the
default en-US host locale. -/
def jsGroupDigits (s : List Char) : List Char :=
  let n := s.length
  (s.enum.map fun ic =>
    if ic.1 ≠ 0 ∧ (n - ic.1) % 3 = 0 then [',', ic.2] else [ic.2]).flatten

/-- `toLocaleString` for a natural number. -/
def jsLocaleStringNat (m : Nat) : String := String.mk (jsGroupDigits (toString m).data)

/-- `toLocaleString` for an integer. -/
def jsLocaleStringInt (n : Int) : String :=
  if n < 0 then "-" ++ jsLocaleStringNat n.natAbs else jsLocaleStringNat n.natAbs

/-- `toLocaleString` for a JSON number; fractional values (never produced by
the registry endpoints the claims touch) fall back to the rational printer. -/
def jsLocaleStringRat (q : ℚ) : String :=
  if q.den = 1 then jsLocaleStringInt q.num else toString q

/-- A character string of `n` copies of `c` (JS `'='.repeat(80)` etc.). -/
def repeatChar (c : Char) (n : Nat) : String := String.mk (List.replicate n c)

/-- JS `Object.keys`, applied to a possibly-undefined value: throws a
`TypeError` on `undefined`/`null`, returns index keys for arrays and strings,
and `[]` for other primitives. -/
def objectKeys : Option Json → Except String (List String)
  | none => .error "Cannot convert undefined or null to object"
  | some .null => .error "Cannot convert undefined or null to object"
  | some (.obj fs) => .ok (fs.map Prod.fst)
  | some (.arr xs) => .ok ((List.range xs.length).map toString)
  | some (.str s) => .ok ((List.range s.length).map toString)
  | some (.num _) => .ok []
  | some (.bool _) => .ok []

/-- An HTTP response as observed by the handlers: the `ok`/`statusText`
fields of the fetch response, and the result of `response.json()`
(`Except.error m` models a rejected JSON-body parse). -/
structure HttpResponse where
  ok : Bool
  status : Nat
  statusText : String
  body : Except String Json

/-- Outcome of one `fetch` call: the promise rejects (network error), or a
response arrives. -/
inductive FetchOutcome where
  | fail (msg : String)
  | resp (r : HttpResponse)

/-- The network oracle: what each URL returns during one tool call. -/
def World : Type := String → FetchOutcome

/-- URL of `GET https://registry.npmjs.org/<pkg>`. -/
def registryUrl (pkg : String) : String := "https://registry.npmjs.org/" ++ pkg

/-- URL of `GET https://registry.npmjs.org/<pkg>/latest`. -/
def registryLatestUrl (pkg : String) : String :=
  "https://registry.npmjs.org/" ++ pkg ++ "/latest"

/-- URL of `GET https://api.npmjs.org/downloads/point/<period>/<pkg>`. -/
def downloadsPointUrl (period pkg : String) : String :=
  "https://api.npmjs.org/downloads/point/" ++ period ++ "/" ++ pkg

/-- One entry of the MCP `content` array (`{type: 'text', text}`). -/
structure TextContent where
  text : String
deriving DecidableEq

/-- The MCP `CallToolResult` shape returned by every handler. -/
structure CallToolResult where
  content : List TextContent
  isError : Bool
deriving DecidableEq

/-- Translation of `isValidMaintainer`-style element check inside
`isNpmPackageInfo`: each maintainer must be an object with string `name`
and string `email`. -/
def isValidMaintainer : Json → Bool
  | .obj fs =>
      (match fs.lookup "name" with | some (.str _) => true | _ => false)
      && (match fs.lookup "email" with | some (.str _) => true | _ => false)
  | _ => false

/-- Translation of `isNpmPackageInfo` (src/index.ts:528): any non-null object
passes unless it carries a malformed `maintainers` field. -/
def isNpmPackageInfo (data : Json) : Bool :=
  data.isObjectLike
  && (match data.getField "maintainers" with
      | none => true
      | some (.arr ms) => ms.all isValidMaintainer
      | some _ => false)

/-- A required field validated by `z.string()`. -/
def isRequiredString (v : Option Json) : Bool :=
  match v with | some (.str _) => true | _ => false

/-- An optional field validated by `z.string().optional()` (absent passes,
present non-string — including null — fails). -/
def isOptionalString (v : Option Json) : Bool :=
  match v with | none => true | some (.str _) => true | _ => false

/-- `z.record(z.string())`: an object all of whose values are strings. -/
def isStringRecord : Json → Bool
  | .obj fs => fs.all fun kv => match kv.2 with | .str _ => true | _ => false
  | _ => false

/-- `z.record(z.string()).optional()`. -/
def isOptionalStringRecord (v : Option Json) : Bool :=
  match v with | none => true | some j => isStringRecord j

/-- Translation of `isNpmPackageData` (src/index.ts:547), i.e. a successful
`NpmPackageDataSchema.parse`: required string `name`/`version`, optional
string `description`/`license`/`types`/`typings`, optional string records
`dependencies`/`devDependencies`/`peerDependencies`. -/
def isNpmPackageData : Json → Bool
  | .obj fs =>
      isRequiredString (fs.lookup "name") && isRequiredString (fs.lookup "version")
      && isOptionalString (fs.lookup "description") && isOptionalString (fs.lookup "license")
      && isOptionalStringRecord (fs.lookup "dependencies")
      && isOptionalStringRecord (fs.lookup "devDependencies")
      && isOptionalStringRecord (fs.lookup "peerDependencies")
      && isOptionalString (fs.lookup "types") && isOptionalString (fs.lookup "typings")
  | _ => false

/-- Translation of `isNpmDownloadsData` (src/index.ts:563), i.e. a successful
`NpmDownloadsDataSchema.parse`. -/
def isNpmDownloadsData : Json → Bool
  | .obj fs =>
      (match fs.lookup "downloads" with | some (.num _) => true | _ => false)
      && isRequiredString (fs.lookup "start") && isRequiredString (fs.lookup "end")
      && isRequiredString (fs.lookup "package")
  | _ => false

/-- The `downloads` field of a payload that passed `isNpmDownloadsData`. -/
def downloadsValue (j : Json) : ℚ :=
  match j.getField "downloads" with | some (.num q) => q | _ => 0

/-! ### npmVersions (src/index.ts:571-622)

Each item runs in its own try/catch: every failure mode of one package is
converted into a per-item failure record. -/

/-- Per-item result of `handleNpmVersions` (the `success: true/false`
tagged union built in the map callback). -/
inductive NpmVersionsResult where
  | success (name : String) (versions : List String) (latest : Option Json)
  | failure (name error : String)

/-- Discriminant of the tagged union (`result.success`). -/
def NpmVersionsResult.isSuccess : NpmVersionsResult → Bool
  | .success _ _ _ => true
  | .failure _ _ => false

/-- One iteration of the `handleNpmVersions` fan-out: fetch the registry
document, reject non-OK statuses and shape mismatches, extract
`Object.keys(data.versions)` and `data['dist-tags']?.latest`; the enclosing
try/catch turns every thrown error into a failure record. -/
def npmVersionsItem (w : World) (pkg : String) : NpmVersionsResult :=
  match w (registryUrl pkg) with
  | .fail msg => .failure pkg msg
  | .resp r =>
    if r.ok = false then .failure pkg ("Failed to fetch package info: " ++ r.statusText)
    else
      match r.body with
      | .error msg => .failure pkg msg
      | .ok data =>
        if isNpmPackageInfo data = false then .failure pkg "Invalid package info format"
        else
          match objectKeys (data.getField "versions") with
          | .error msg => .failure pkg msg
          | .ok versions =>
            .success pkg versions
              ((data.getField "dist-tags").bind fun dt => dt.getField "latest")

/-- The text content built from one `handleNpmVersions` item result. -/
def renderVersionsResult : NpmVersionsResult → TextContent
  | .success name versions latest =>
      ⟨"📦 " ++ name ++ ":\nLatest version: " ++ jsDisplayOpt latest
        ++ "\nAvailable versions: " ++ String.intercalate ", " versions⟩
  | .failure name err => ⟨"❌ Error fetching " ++ name ++ ": " ++ err⟩

/-- `handleNpmVersions`: fan out over the packages, then map each per-item
result to one content entry; `isError` is unconditionally false. -/
def handleNpmVersions (w : World) (packages : List String) : CallToolResult :=
  { content := (packages.map (npmVersionsItem w)).map renderVersionsResult
    isError := false }

/-! ### npmLatest (src/index.ts:634-687) -/

/-- Per-item result of `handleNpmLatest`; the success payload keeps the raw
(uvalidated) fields read off the `/latest` document. -/
inductive NpmLatestResult where
  | success (name : String) (version description author license homepage : Option Json)
  | failure (name error : String)

/-- One iteration of the `handleNpmLatest` fan-out; the response body is
cast (`as NpmLatestVersionResponse`) without validation. -/
def npmLatestItem (w : World) (pkg : String) : NpmLatestResult :=
  match w (registryLatestUrl pkg) with
  | .fail msg => .failure pkg msg
  | .resp r =>
    if r.ok = false then .failure pkg ("Failed to fetch latest version: " ++ r.statusText)
    else
      match r.body with
      | .error msg => .failure pkg msg
      | .ok data =>
        .success pkg (data.getField "version") (data.getField "description")
          ((data.getField "author").bind fun a => a.getField "name")
          (data.getField "license") (data.getField "homepage")

/-- The text content built from one `handleNpmLatest` item result. -/
def renderLatestResult : NpmLatestResult → TextContent
  | .success name version description author license homepage =>
      ⟨"📦 Latest version of " ++ name ++ ":\nVersion: " ++ jsDisplayOpt version
        ++ "\nDescription: " ++ jsOr description "No description available"
        ++ "\nAuthor: " ++ jsOr author "Unknown"
        ++ "\nLicense: " ++ jsOr license "Unknown"
        ++ "\nHomepage: " ++ jsOr homepage "Not specified" ++ "\n---"⟩
  | .failure name err => ⟨"❌ Error fetching latest version for " ++ name ++ ": " ++ err⟩

/-- `handleNpmLatest`: one content entry per package, `isError` always false. -/
def handleNpmLatest (w : World) (packages : List String) : CallToolResult :=
  { content := (packages.map (npmLatestItem w)).map renderLatestResult
    isError := false }

/-! ### Promise.all over fallible items

For handlers whose map callback has no try/catch, one item's thrown error
rejects the whole `Promise.all`; rejection does not cancel the other items,
but only the rejection reason reaches the outer catch. `collectAll` models
this: the error of the first failing item (in list order) is reported, and
only a fully successful list resolves. -/

/-- Settle a list of fallible item computations the way `Promise.all` does. -/
def collectAll {α : Type} : List (Except String α) → Except String (List α)
  | [] => .ok []
  | .error m :: _ => .error m
  | .ok a :: rest =>
    match collectAll rest with
    | .error m => .error m
    | .ok as => .ok (a :: as)

/-- Whether an item computation threw. -/
def isExceptError {α : Type} : Except String α → Bool
  | .error _ => true
  | .ok _ => false

/-! ### npmDeps (src/index.ts:689-777)

Guards against an empty package list (the only handler family member the
claims cite that does), and catches errors per item. -/

/-- Per-item result of `handleNpmDeps`; dependency records are kept as
association lists after the zod validation guaranteed string values. -/
inductive NpmDepsResult where
  | success (name version : String)
      (dependencies devDependencies peerDependencies : List (String × String))
  | failure (name error : String)

/-- The entries of `rawData.dependencies ?? {}` (values are strings after
`isNpmPackageData` passed). -/
def recordEntries (v : Option Json) : List (String × String) :=
  match v with
  | some (.obj fs) => fs.map fun kv => (kv.1, jsDisplay kv.2)
  | _ => []

/-- One iteration of the `handleNpmDeps` fan-out (per-item try/catch plus
explicit error records for non-OK responses and invalid payloads). -/
def npmDepsItem (w : World) (pkg : String) : NpmDepsResult :=
  match w (registryLatestUrl pkg) with
  | .fail msg => .failure pkg msg
  | .resp r =>
    if r.ok = false then .failure pkg ("Failed to fetch package info: " ++ r.statusText)
    else
      match r.body with
      | .error msg => .failure pkg msg
      | .ok data =>
        if isNpmPackageData data = false then .failure pkg "Invalid package data received"
        else
          .success pkg (jsDisplayOpt (data.getField "version"))
            (recordEntries (data.getField "dependencies"))
            (recordEntries (data.getField "devDependencies"))
            (recordEntries (data.getField "peerDependencies"))

/-- One dependency block (`Dependencies:\n• dep: version\n...\n`), emitted
only when non-empty. -/
def renderDepsBlock (header : String) (entries : List (String × String)) : String :=
  if entries.length > 0 then
    header ++ String.join (entries.map fun kv => "• " ++ kv.1 ++ ": " ++ kv.2 ++ "\n") ++ "\n"
  else ""

/-- The text appended for one `handleNpmDeps` item result. -/
def renderDepsResult : NpmDepsResult → String
  | .failure name err => "❌ " ++ name ++ ": " ++ err ++ "\n\n"
  | .success name version deps devDeps peerDeps =>
      "📦 Dependencies for " ++ name ++ "@" ++ version ++ "\n\n"
        ++ renderDepsBlock "Dependencies:\n" deps
        ++ renderDepsBlock "Dev Dependencies:\n" devDeps
        ++ renderDepsBlock "Peer Dependencies:\n" peerDeps
        ++ "---\n\n"

/-- `handleNpmDeps`: an empty package list throws before fan-out and the
outer catch converts it into a top-level error response. -/
def handleNpmDeps (w : World) (packages : List String) : CallToolResult :=
  if packages.length = 0 then
    { content := [⟨"Error fetching dependencies: No package names provided"⟩], isError := true }
  else
    { content := [⟨String.join ((packages.map (npmDepsItem w)).map renderDepsResult)⟩]
      isError := false }

/-! ### npmTypes (src/index.ts:779-839)

The map callback has no try/catch: a rejected fetch, a non-OK status or a
rejected body parse throws out of the fan-out, so any one item's failure
rejects the whole `Promise.all` and the outer catch marks the entire
response as an error. -/

/-- One iteration of the `handleNpmTypes` fan-out, producing the per-item
text or throwing. The second fetch (the DefinitelyTyped lookup) has
`.catch(() => null)`, so only its body parse can still throw. -/
def npmTypesItem (w : World) (pkg : String) : Except String String :=
  match w (registryLatestUrl pkg) with
  | .fail msg => .error msg
  | .resp r =>
    if r.ok = false then .error ("Failed to fetch package info: " ++ r.statusText)
    else
      match r.body with
      | .error msg => .error msg
      | .ok data =>
        let types := data.getField "types"
        let typings := data.getField "typings"
        let hasTypes := jsTruthyOpt types || jsTruthyOpt typings
        let text₁ :=
          "📦 TypeScript support for " ++ pkg ++ "@" ++ jsDisplayOpt (data.getField "version")
            ++ "\n"
            ++ (if hasTypes then
                  "✅ Package includes built-in TypeScript types\nTypes path: "
                    ++ jsDisplayOpt (jsOrJson types typings) ++ "\n"
                else "")
        let typesPackage := "@types/" ++ jsReplaceFirst (jsReplaceFirst pkg "@" "") "/" "__"
        match w (registryLatestUrl typesPackage) with
        | .fail _ =>
          .ok (text₁ ++ (if hasTypes then "" else "❌ No TypeScript type definitions found"))
        | .resp tr =>
          if tr.ok then
            match tr.body with
            | .error msg => .error msg
            | .ok tdata =>
              .ok (text₁ ++ "📦 DefinitelyTyped package available: " ++ typesPackage ++ "@"
                ++ jsDisplayOpt (tdata.getField "version")
                ++ "\nInstall with: npm install -D " ++ typesPackage)
          else
            .ok (text₁ ++ (if hasTypes then "" else "❌ No TypeScript type definitions found"))

/-- The aggregation loop of `handleNpmTypes`: each item text followed by a
blank line, with a `---` delimiter between consecutive items. -/
def renderTypesSections : List String → String
  | [] => ""
  | [t] => t ++ "\n\n"
  | t :: rest => t ++ "\n\n" ++ "---\n\n" ++ renderTypesSections rest

/-- `handleNpmTypes`: settle the fan-out; any thrown item error becomes a
single top-level error response. -/
def handleNpmTypes (w : World) (packages : List String) : CallToolResult :=
  match collectAll (packages.map (npmTypesItem w)) with
  | .error msg =>
      { content := [⟨"Error checking TypeScript types: " ++ msg⟩], isError := true }
  | .ok texts =>
      { content := [⟨renderTypesSections texts⟩], isError := false }

/-! ### npmPackageReadme (src/index.ts:1427-1483)

Also without a per-item try/catch: a non-OK response or an
`isNpmPackageInfo` mismatch throws and turns the whole batch into a
top-level error response. -/

/-- The record one successful `handleNpmPackageReadme` item resolves with. -/
structure NpmReadmeEntry where
  name : String
  version : String
  text : String

/-- One iteration of the `handleNpmPackageReadme` fan-out. -/
def npmReadmeItem (w : World) (pkg : String) : Except String NpmReadmeEntry :=
  match w (registryUrl pkg) with
  | .fail msg => .error msg
  | .resp r =>
    if r.ok = false then .error ("Failed to fetch package info: " ++ r.statusText)
    else
      match r.body with
      | .error msg => .error msg
      | .ok data =>
        if isNpmPackageInfo data = false then .error "Invalid package info data received"
        else
          let latest := (data.getField "dist-tags").bind fun dt => dt.getField "latest"
          if jsTruthyOpt latest = false then .error "No latest version found"
          else
            let key := jsDisplayOpt latest
            let versionEntry := (data.getField "versions").bind fun vs => vs.getField key
            if jsTruthyOpt versionEntry = false then .error "No latest version found"
            else
              let readme :=
                jsOrJson (versionEntry.bind fun ve => ve.getField "readme")
                  (data.getField "readme")
              if jsTruthyOpt readme = false then .ok ⟨pkg, key, "No README found"⟩
              else .ok ⟨pkg, key, jsDisplayOpt readme⟩

/-- The banner-framed section for one README entry. -/
def renderReadmeEntry (e : NpmReadmeEntry) : String :=
  repeatChar '=' 80 ++ "\n📖 " ++ e.name ++ "@" ++ e.version ++ "\n"
    ++ repeatChar '=' 80 ++ "\n\n" ++ e.text

/-- The aggregation loop of `handleNpmPackageReadme` (banner separator
between consecutive entries). -/
def renderReadmeSections : List NpmReadmeEntry → String
  | [] => ""
  | [e] => renderReadmeEntry e
  | e :: rest =>
      renderReadmeEntry e ++ "\n\n" ++ repeatChar '=' 80 ++ "\n\n" ++ renderReadmeSections rest

/-- `handleNpmPackageReadme`: any thrown item error becomes a single
top-level error response. -/
def handleNpmPackageReadme (w : World) (packages : List String) : CallToolResult :=
  match collectAll (packages.map (npmReadmeItem w)) with
  | .error msg => { content := [⟨"Error fetching READMEs: " ++ msg⟩], isError := true }
  | .ok entries => { content := [⟨renderReadmeSections entries⟩], isError := false }

/-! ### npmTrends (src/index.ts:983-1079) -/

/-- The three accepted `period` values (src/index.ts:990). -/
def validPeriods : List String := ["last-week", "last-month", "last-year"]

/-- Period defaulting (src/index.ts:989-992): an absent, empty or invalid
period argument falls back to `last-month`. -/
def effectivePeriod (p : Option String) : String :=
  match p with
  | some s => if validPeriods.contains s then s else "last-month"
  | none => "last-month"

/-- The `periodDays` lookup table (src/index.ts:994-998); an unknown key
would be `undefined` in JS and is mapped to `0` (unreachable, since the
handler only ever looks up an effective period). -/
def periodDays (period : String) : Nat :=
  if period = "last-week" then 7
  else if period = "last-month" then 30
  else if period = "last-year" then 365
  else 0

/-- `Math.round(result.downloads / periodDays[period])`
(src/index.ts:1056). -/
def npmTrendsAvgDaily (downloads : ℚ) (period : String) : ℤ :=
  jsMathRound (downloads / (periodDays period : ℚ))

/-- Per-item result of `handleNpmTrends` (its `FetchResult` union). -/
inductive NpmTrendsResult where
  | success (name : String) (downloads : ℚ)
  | failure (name error : String)

/-- One iteration of the `handleNpmTrends` fan-out. Non-OK statuses and
shape mismatches become per-item failure records, but a rejected fetch or
body parse throws (the callback has no try/catch) and rejects the batch. -/
def npmTrendsItem (w : World) (period pkg : String) : Except String NpmTrendsResult :=
  match w (downloadsPointUrl period pkg) with
  | .fail msg => .error msg
  | .resp r =>
    if r.ok = false then
      .ok (.failure pkg ("Failed to fetch download trends: " ++ r.statusText))
    else
      match r.body with
      | .error msg => .error msg
      | .ok data =>
        if isNpmDownloadsData data then .ok (.success pkg (downloadsValue data))
        else .ok (.failure pkg "Invalid response format from npm downloads API")

/-- The per-package stats block of the npmTrends report. -/
def renderTrendsResult (period : String) : NpmTrendsResult → String
  | .failure name err => "❌ " ++ name ++ ": " ++ err ++ "\n"
  | .success name d =>
      "📦 " ++ name ++ "\nTotal downloads: " ++ jsLocaleStringRat d
        ++ "\nAverage daily downloads: " ++ jsLocaleStringInt (npmTrendsAvgDaily d period)
        ++ "\n\n"

/-- The `reduce` computing total downloads over the successful items. -/
def trendsTotal (results : List NpmTrendsResult) : ℚ :=
  results.foldl (fun acc r => match r with | .success _ d => acc + d | _ => acc) 0

/-- `handleNpmTrends`: default the period, fan out, and render the per-item
stats followed by the cross-package totals. -/
def handleNpmTrends (w : World) (packages : List String) (periodArg : Option String) :
    CallToolResult :=
  let period := effectivePeriod periodArg
  match collectAll (packages.map (npmTrendsItem w period)) with
  | .error msg =>
      { content := [⟨"Error fetching download trends: " ++ msg⟩], isError := true }
  | .ok results =>
      let total := trendsTotal results
      { content :=
          [⟨"📈 Download Trends\n\nPeriod: " ++ period ++ " ("
              ++ toString (periodDays period) ++ " days)\n\n"
              ++ String.join (results.map (renderTrendsResult period))
              ++ "Total downloads across all packages: " ++ jsLocaleStringRat total
              ++ "\nAverage daily downloads across all packages: "
              ++ jsLocaleStringInt (npmTrendsAvgDaily total period) ++ "\n"⟩]
        isError := false }

/-! ### npmSearch (src/index.ts:1485-1546) -/

/-- `encodeURIComponent`: every character outside the unreserved set is
percent-encoded byte-wise from its UTF-8 encoding. -/
def uriUnreserved (c : Char) : Bool :=
  c.isAlphanum || c = '-' || c = '_' || c = '.' || c = '!' || c = '~' || c = '*'
    || c = '\'' || c = '(' || c = ')'

/-- Upper-case hexadecimal digit. -/
def hexDigit (n : Nat) : Char :=
  if n < 10 then Char.ofNat ('0'.toNat + n) else Char.ofNat ('A'.toNat + n - 10)

/-- Percent-encode one byte. -/
def percentByte (b : Nat) : String :=
  String.mk ['%', hexDigit (b / 16), hexDigit (b % 16)]

/-- The UTF-8 bytes of a character. -/
def utf8Bytes (c : Char) : List Nat :=
  let n := c.toNat
  if n < 0x80 then [n]
  else if n < 0x800 then [0xC0 + n / 64, 0x80 + n % 64]
  else if n < 0x10000 then [0xE0 + n / 4096, 0x80 + n / 64 % 64, 0x80 + n % 64]
  else [0xF0 + n / 262144, 0x80 + n / 4096 % 64, 0x80 + n / 64 % 64, 0x80 + n % 64]

/-- JS `encodeURIComponent`. -/
def encodeURIComponent (s : String) : String :=
  String.join (s.data.map fun c =>
    if uriUnreserved c then String.mk [c] else String.join ((utf8Bytes c).map percentByte))

/-- `const limit = args.limit || 10` (src/index.ts:1490): an omitted or
falsy (zero) limit becomes 10. -/
def effectiveSearchLimit (limit : Option Nat) : Nat :=
  match limit with
  | none => 10
  | some n => if n = 0 then 10 else n

/-- The search URL (src/index.ts:1491-1493): the `size` parameter carries
the effective limit. -/
def npmSearchRequestUrl (query : String) (limit : Option Nat) : String :=
  "https://registry.npmjs.org/-/v1/search?text=" ++ encodeURIComponent query
    ++ "&size=" ++ toString (effectiveSearchLimit limit)

/-- One parsed element of `objects` after `NpmSearchResultSchema` accepted
the payload (only the fields the renderer reads are kept). -/
structure SearchObjectEntry where
  name : String
  version : String
  description : Option String
  keywords : Option (List String)
  links : Option (Option String × Option String × Option String)
  scoreFinal : ℚ

/-- Parse of `z.array(z.string()).optional()`. -/
def parseOptStringList (v : Option Json) : Option (Option (List String)) :=
  match v with
  | none => some none
  | some (.arr xs) =>
    let rec strings : List Json → Option (List String)
      | [] => some []
      | .str s :: rest => (strings rest).map fun ss => s :: ss
      | _ => none
    (strings xs).map some
  | some _ => none

/-- Parse of `z.string().optional()`. -/
def parseOptString (v : Option Json) : Option (Option String) :=
  match v with
  | none => some none
  | some (.str s) => some (some s)
  | some _ => none

/-- True when the value parses under `z.number()`. -/
def isNumberJson (v : Option Json) : Bool :=
  match v with | some (.num _) => true | _ => false

/-- Parse of one element of `objects` under `NpmSearchResultSchema`
(src/index.ts:221-256): `package.name`/`package.version` required strings,
optional `description`/`keywords`/`publisher`/`links`, and numeric
`score.final`, `score.detail.*`, `searchScore`. -/
def parseSearchObject (j : Json) : Option SearchObjectEntry :=
  match j with
  | .obj fs => do
    let pkgJ ← fs.lookup "package"
    let pfs ← match pkgJ with | .obj pfs => some pfs | _ => none
    let name ← match pfs.lookup "name" with | some (.str s) => some s | _ => none
    let version ← match pfs.lookup "version" with | some (.str s) => some s | _ => none
    let description ← parseOptString (pfs.lookup "description")
    let keywords ← parseOptStringList (pfs.lookup "keywords")
    let _ ← match pfs.lookup "publisher" with
      | none => some ()
      | some (.obj qfs) =>
        match qfs.lookup "username" with | some (.str _) => some () | _ => none
      | some _ => none
    let links ← match pfs.lookup "links" with
      | none => some none
      | some (.obj lfs) => do
        let n ← parseOptString (lfs.lookup "npm")
        let h ← parseOptString (lfs.lookup "homepage")
        let rp ← parseOptString (lfs.lookup "repository")
        some (some (n, h, rp))
      | some _ => none
    let scoreJ ← fs.lookup "score"
    let sfs ← match scoreJ with | .obj sfs => some sfs | _ => none
    let final ← match sfs.lookup "final" with | some (.num q) => some q | _ => none
    let dfs ← match sfs.lookup "detail" with | some (.obj dfs) => some dfs | _ => none
    if isNumberJson (dfs.lookup "quality") && isNumberJson (dfs.lookup "popularity")
        && isNumberJson (dfs.lookup "maintenance") && isNumberJson (fs.lookup "searchScore")
    then some ⟨name, version, description, keywords, links, final⟩
    else none
  | _ => none

/-- Parse every element of `objects`. -/
def parseSearchObjects : List Json → Option (List SearchObjectEntry)
  | [] => some []
  | j :: rest => do
    let e ← parseSearchObject j
    let es ← parseSearchObjects rest
    some (e :: es)

/-- `NpmSearchResultSchema.safeParse`: a passthrough object with parsed
`objects` and a numeric `total`. -/
def parseNpmSearchResult (j : Json) : Option (List SearchObjectEntry × ℚ) :=
  match j with
  | .obj fs => do
    let objsJ ← fs.lookup "objects"
    let objs ← match objsJ with | .arr xs => parseSearchObjects xs | _ => none
    let total ← match fs.lookup "total" with | some (.num q) => some q | _ => none
    some (objs, total)
  | _ => none

/-- `Number.prototype.toFixed` for a non-negative exact value: round to
`f` decimal places (ties away from zero) and zero-pad the fraction. -/
def jsToFixed (f : Nat) (q : ℚ) : String :=
  let sign := if q < 0 then "-" else ""
  let n := (Rat.floor (|q| * ((10 : ℚ) ^ f) + 1/2)).toNat
  let ip := n / 10 ^ f
  let fp := n % 10 ^ f
  if f = 0 then sign ++ toString ip
  else
    sign ++ toString ip ++ "."
      ++ String.mk (List.replicate (f - (toString fp).length) '0') ++ toString fp

/-- The header of the npmSearch report (src/index.ts:1505-1506): query,
locale-formatted total, and the effective limit. -/
def npmSearchHeader (query : String) (total : ℚ) (limit : Nat) : String :=
  "🔍 Search results for \"" ++ query ++ "\"\nFound " ++ jsLocaleStringRat total
    ++ " packages (showing top " ++ toString limit ++ ")\n\n"

/-- One `📦 name@version` block of the npmSearch report, with the
normalized score (`Math.min(1, score.final / 100)`) and optional
description, keywords and links. -/
def renderSearchObject (e : SearchObjectEntry) : String :=
  let normalizedScore := min 1 (e.scoreFinal / 100)
  "📦 " ++ e.name ++ "@" ++ e.version ++ "\n"
    ++ (match e.description with
        | some d => if d ≠ "" then d ++ "\n" else ""
        | none => "")
    ++ "Score: " ++ jsToFixed 2 normalizedScore ++ " ("
    ++ jsToFixed 0 (normalizedScore * 100) ++ "%)\n"
    ++ (match e.keywords with
        | some ks => if ks.length > 0 then "Keywords: " ++ String.intercalate ", " ks ++ "\n" else ""
        | none => "")
    ++ (match e.links with
        | some (n, h, rp) =>
          "Links:\n"
            ++ (match n with | some s => if s ≠ "" then "• NPM: " ++ s ++ "\n" else "" | none => "")
            ++ (match h with
                | some s => if s ≠ "" then "• Homepage: " ++ s ++ "\n" else ""
                | none => "")
            ++ (match rp with
                | some s => if s ≠ "" then "• Repository: " ++ s ++ "\n" else ""
                | none => "")
        | none => "")
    ++ "\n"

/-- `handleNpmSearch`: a single request; every failure (rejected fetch,
non-OK status, rejected or invalid body) becomes a top-level error. -/
def handleNpmSearch (w : World) (query : String) (limit : Option Nat) : CallToolResult :=
  match w (npmSearchRequestUrl query limit) with
  | .fail msg => { content := [⟨"Error searching packages: " ++ msg⟩], isError := true }
  | .resp r =>
    if r.ok = false then
      { content := [⟨"Error searching packages: Failed to search packages: " ++ r.statusText⟩]
        isError := true }
    else
      match r.body with
      | .error msg => { content := [⟨"Error searching packages: " ++ msg⟩], isError := true }
      | .ok data =>
        match parseNpmSearchResult data with
        | none =>
          { content := [⟨"Error searching packages: Invalid search results data received"⟩]
            isError := true }
        | some (objs, total) =>
          { content :=
              [⟨npmSearchHeader query total (effectiveSearchLimit limit)
                  ++ String.join (objs.map renderSearchObject)⟩]
            isError := false }

/-! ### Outbound request traces

For the fan-out handlers the claims compare the number of issued HTTP
requests with the number of input packages. Each function below enumerates,
in program order, the URLs the corresponding handler fetches. -/

/-- `handleNpmVersions` issues exactly one request per package
(src/index.ts:577). -/
def npmVersionsRequests (packages : List String) : List String :=
  packages.map registryUrl

/-- `handleNpmLatest` issues exactly one request per package
(src/index.ts:640). -/
def npmLatestRequests (packages : List String) : List String :=
  packages.map registryLatestUrl

/-- `handleNpmCompare` issues two parallel requests per package: the
registry `latest` document and the monthly download count
(src/index.ts:1085-1088). -/
def npmCompareItemRequests (pkg : String) : List String :=
  [registryLatestUrl pkg, downloadsPointUrl "last-month" pkg]

/-- All requests issued by one `handleNpmCompare` call. -/
def npmCompareRequests (packages : List String) : List String :=
  (packages.map npmCompareItemRequests).flatten

/-- `handleNpmTypes` issues one request for the package itself, and — only
when that response is OK and its body parses — a second one for the
DefinitelyTyped package (src/index.ts:783,803). -/
def npmTypesItemRequests (w : World) (pkg : String) : List String :=
  let u := registryLatestUrl pkg
  match w u with
  | .fail _ => [u]
  | .resp r =>
    if r.ok = false then [u]
    else
      match r.body with
      | .error _ => [u]
      | .ok _ =>
        [u, registryLatestUrl ("@types/" ++ jsReplaceFirst (jsReplaceFirst pkg "@" "") "/" "__")]

/-! ### Tool registry and dispatch

Modelled from the spec: the dispatch layer itself lives in the MCP SDK
(`McpServer.tool` / `Server.setRequestHandler`), which is an external
dependency and not part of src/. Following spec §4.1, a registry is a list
of tool descriptors (unique name, input-schema validator, handler); lookup
failure yields `UnknownTool`, argument-validation failure yields
`SchemaMismatch` before the handler runs, and otherwise the handler's
result is returned. The validator used by the witnesses below is the zod
shape that src/index.ts:2085-2094 registers for `npmVersions`. -/

/-- A registered tool: name, declared input schema (as a validator over the
argument object), handler. -/
structure ToolDescriptor (α : Type) where
  name : String
  validate : Json → Bool
  handler : Json → α

/-- Result of dispatching one tool call. -/
inductive DispatchResult (α : Type) where
  | unknownTool
  | schemaMismatch
  | ok (result : α)

/-- Registry lookup by tool name. -/
def findTool {α : Type} (registry : List (ToolDescriptor α)) (name : String) :
    Option (ToolDescriptor α) :=
  registry.find? fun t => t.name == name

/-- Modelled from the spec: `dispatch(name, args)` — unknown names fail,
schema-invalid arguments fail before the handler is invoked. -/
def dispatch {α : Type} (registry : List (ToolDescriptor α)) (name : String) (args : Json) :
    DispatchResult α :=
  match findTool registry name with
  | none => .unknownTool
  | some t => if t.validate args then .ok (t.handler args) else .schemaMismatch

/-- Replace a descriptor's handler, leaving name and schema untouched. -/
def setHandler {α : Type} (g : Json → α) (d : ToolDescriptor α) : ToolDescriptor α :=
  { d with handler := g }

/-- The zod argument schema `{ packages: z.array(z.string()) }` that
src/index.ts:2085-2094 declares for the `npmVersions` tool: an object whose
`packages` field is an array of strings (zod objects strip unknown keys
without failing). -/
def npmVersionsArgsValid : Json → Bool
  | .obj fs =>
    (match fs.lookup "packages" with
     | some (.arr xs) => xs.all fun j => match j with | .str _ => true | _ => false
     | _ => false)
  | _ => false

/-! ### A concrete demonstration world

`demoWorld` answers the registry documents for a package `good` (and a
shape-violating document for `badshape`), and a 404 for every other URL.
It is shared by the witnesses and counterexamples below. -/

/-- Registry document for the package `good`. -/
def goodInfoJson : Json :=
  .obj [("name", .str "good"),
        ("dist-tags", .obj [("latest", .str "1.0.0")]),
        ("versions", .obj [("1.0.0",
          .obj [("name", .str "good"), ("version", .str "1.0.0"),
                ("readme", .str "A readme")])])]

/-- `latest` document for the package `good`. -/
def goodLatestJson : Json := .obj [("name", .str "good"), ("version", .str "1.0.0")]

/-- A payload rejected by `isNpmPackageInfo` (its `maintainers` field is not
an array). -/
def badShapeJson : Json := .obj [("name", .str "badshape"), ("maintainers", .str "oops")]

/-- The demonstration network oracle. -/
def demoWorld : World := fun url =>
  if url = registryUrl "good" then .resp ⟨true, 200, "OK", .ok goodInfoJson⟩
  else if url = registryLatestUrl "good" then .resp ⟨true, 200, "OK", .ok goodLatestJson⟩
  else if url = registryUrl "badshape" then .resp ⟨true, 200, "OK", .ok badShapeJson⟩
  else .resp ⟨false, 404, "Not Found", .error "Unexpected end of JSON input"⟩

/-! ### Helper lemmas -/

/-- The name stored in a per-item `handleNpmVersions` record. -/
def NpmVersionsResult.pkgName : NpmVersionsResult → String
  | .success n _ _ => n
  | .failure n _ => n

/-- Every branch of `npmVersionsItem` records the input package name. -/
theorem npmVersionsItem_pkgName (w : World) (pkg : String) :
    (npmVersionsItem w pkg).pkgName = pkg := by
  unfold npmVersionsItem
  repeat' split
  all_goals rfl

/-- If any mapped item throws, `Promise.all` (modelled by `collectAll`)
rejects. -/
theorem collectAll_error_of_mem {α β : Type} (f : β → Except String α) {l : List β} {b : β}
    (hmem : b ∈ l) (herr : isExceptError (f b) = true) :
    isExceptError (collectAll (l.map f)) = true := by
  induction l with
  | nil => cases hmem
  | cons x xs ih =>
    rcases List.mem_cons.mp hmem with h | h
    · have herr' : isExceptError (f x) = true := by rw [← h]; exact herr
      cases hfx : f x with
      | error m => simp [List.map_cons, collectAll, isExceptError, hfx]
      | ok a => rw [hfx] at herr'; simp [isExceptError] at herr'
    · cases hfx : f x with
      | error m => simp [List.map_cons, collectAll, isExceptError, hfx]
      | ok a =>
        have hrec := ih h
        simp only [List.map_cons, collectAll, hfx]
        cases hrest : collectAll (xs.map f) with
        | error m => simp [isExceptError]
        | ok as => rw [hrest] at hrec; simp [isExceptError] at hrec

/-- `Math.round` lands within one half of its argument. -/
theorem jsMathRound_close (q : ℚ) : |(jsMathRound q : ℚ) - q| ≤ 1/2 := by
  rw [abs_le, jsMathRound_eq_floor]
  constructor
  · have h := Int.lt_floor_add_one (q + 1/2)
    push_cast at h ⊢
    linarith
  · have h := Int.floor_le (q + 1/2)
    push_cast at h ⊢
    linarith

/-- Registry lookup ignores handlers: replacing every handler leaves
`findTool` pointing at the same (handler-replaced) descriptor. -/
theorem findTool_map_setHandler {α : Type} (g : Json → α)
    (registry : List (ToolDescriptor α)) (name : String) :
    findTool (registry.map (setHandler g)) name =
      (findTool registry name).map (setHandler g) := by
  induction registry with
  | nil => rfl
  | cons d ds ih =>
    simp only [List.map_cons, findTool, List.find?] at ih ⊢
    by_cases h : d.name == name
    · simp [setHandler, h]
    · simp only [setHandler] at h ⊢
      simp [h, ih]

/-! ## Claims -/

/-- C1 counterexample: in `handleNpmTypes` the failure of the second item
aborts the batch after fan-out began — the two-package call collapses to a
single top-level error entry with `isError = true`, so a per-item failure
can abort the batch, contradicting the claim as stated for all handlers. -/
theorem npmTypes_abort_counterexample :
    (handleNpmTypes demoWorld ["good", "bad"]).isError = true ∧
    (handleNpmTypes demoWorld ["good", "bad"]).content.length = 1 := by decide

/-- C1 (amended): in `handleNpmVersions` a per-item failure becomes a
Failure entry for that item while every item still produces its own entry
and the batch is never aborted (`isError` stays false); but in
`handleNpmTypes` the same failing item rejects the whole fan-out and the
top-level response is marked as an error even though fan-out had begun. -/
theorem per_item_failure_isolation_versions_not_types
    (w : World) (pkgs : List String) (pkg : String) (hmem : pkg ∈ pkgs)
    (hfail : (npmVersionsItem w pkg).isSuccess = false)
    (hterr : isExceptError (npmTypesItem w pkg) = true) :
    (handleNpmVersions w pkgs).isError = false ∧
    (handleNpmVersions w pkgs).content.length = pkgs.length ∧
    (∃ e, npmVersionsItem w pkg = .failure pkg e ∧
      (⟨"❌ Error fetching " ++ pkg ++ ": " ++ e⟩ : TextContent)
        ∈ (handleNpmVersions w pkgs).content) ∧
    (handleNpmTypes w pkgs).isError = true := by
  refine ⟨rfl, by simp [handleNpmVersions], ?_, ?_⟩
  · cases hi : npmVersionsItem w pkg with
    | success n vs l => rw [hi] at hfail; simp [NpmVersionsResult.isSuccess] at hfail
    | failure n e =>
      have hn : n = pkg := by
        have h := npmVersionsItem_pkgName w pkg
        rw [hi] at h
        exact h
      subst hn
      refine ⟨e, rfl, ?_⟩
      have hmem2 := List.mem_map_of_mem renderVersionsResult
        (List.mem_map_of_mem (npmVersionsItem w) hmem)
      rw [hi] at hmem2
      simpa [handleNpmVersions, renderVersionsResult] using hmem2
  · have h := collectAll_error_of_mem (npmTypesItem w) hmem hterr
    unfold handleNpmTypes
    cases hq : collectAll (pkgs.map (npmTypesItem w)) with
    | error m => rfl
    | ok res => rw [hq] at h; simp [isExceptError] at h

/-- C1 witness at `demoWorld` with packages `["good", "bad"]` and the
failing item `"bad"`. -/
theorem per_item_failure_isolation_versions_not_types_witness :
    ("bad" ∈ ["good", "bad"] ∧
      (npmVersionsItem demoWorld "bad").isSuccess = false ∧
      isExceptError (npmTypesItem demoWorld "bad") = true) ∧
    ((handleNpmVersions demoWorld ["good", "bad"]).isError = false ∧
      (handleNpmVersions demoWorld ["good", "bad"]).content.length =
        (["good", "bad"] : List String).length ∧
      (∃ e, npmVersionsItem demoWorld "bad" = .failure "bad" e ∧
        (⟨"❌ Error fetching " ++ "bad" ++ ": " ++ e⟩ : TextContent)
          ∈ (handleNpmVersions demoWorld ["good", "bad"]).content) ∧
      (handleNpmTypes demoWorld ["good", "bad"]).isError = true) :=
  ⟨⟨by decide, by decide, by decide⟩,
   per_item_failure_isolation_versions_not_types demoWorld ["good", "bad"] "bad"
     (by decide) (by decide) (by decide)⟩

/-- C2: for every input list (in particular every non-empty one), the
rendered responses of `handleNpmVersions` and `handleNpmLatest` contain
exactly one per-item entry per input package. -/
theorem report_length_equals_input_length
    (w : World) (pkgs : List String) (_hne : pkgs ≠ []) :
    (handleNpmVersions w pkgs).content.length = pkgs.length ∧
    (handleNpmLatest w pkgs).content.length = pkgs.length := by
  constructor <;> simp [handleNpmVersions, handleNpmLatest]

/-- C2 witness at `demoWorld` with packages `["good", "bad"]`. -/
theorem report_length_equals_input_length_witness :
    (["good", "bad"] : List String) ≠ [] ∧
    ((handleNpmVersions demoWorld ["good", "bad"]).content.length =
        (["good", "bad"] : List String).length ∧
     (handleNpmLatest demoWorld ["good", "bad"]).content.length =
        (["good", "bad"] : List String).length) :=
  ⟨by decide, report_length_equals_input_length demoWorld ["good", "bad"] (by decide)⟩

/-- C3 counterexample: `handleNpmVersions` has no empty-list guard — the
empty package list yields an empty success report (`isError = false`, no
content), not a top-level error, contradicting the claim as stated for all
handlers. -/
theorem npmVersions_empty_input_counterexample :
    (handleNpmVersions demoWorld []).isError = false ∧
    (handleNpmVersions demoWorld []).content = [] := ⟨rfl, rfl⟩

/-- C3 (amended): only the handlers with an explicit empty-list guard
(`handleNpmDeps`, and likewise npmSize/npmVulnerabilities) return a single
top-level error on an empty package list; the unguarded handlers such as
`handleNpmVersions` return an empty success report. -/
theorem empty_input_guard_only_where_present (w : World) :
    handleNpmDeps w [] =
      ⟨[⟨"Error fetching dependencies: No package names provided"⟩], true⟩ ∧
    handleNpmVersions w [] = ⟨[], false⟩ := ⟨rfl, rfl⟩

/-- C4 counterexample: a shape mismatch (an `isNpmPackageInfo` failure) in
`handleNpmPackageReadme` is surfaced as a top-level error response for the
whole batch, not as a Failure entry embedded in the report, contradicting
the claim as stated for all handlers. -/
theorem npmPackageReadme_shape_mismatch_counterexample :
    handleNpmPackageReadme demoWorld ["badshape"] =
      ⟨[⟨"Error fetching READMEs: Invalid package info data received"⟩], true⟩ := by decide

/-- C4 (amended): a payload that fails the expected shape makes the item a
Failure entry in `handleNpmVersions` (the batch completes, `isError` false,
the entry is embedded in the report), but in `handleNpmPackageReadme` the
same mismatch rejects the fan-out and the batch response is a top-level
error (never an uncaught exception in either case). -/
theorem shape_mismatch_outcomes_by_handler
    (w : World) (pkgs : List String) (pkg : String) (r : HttpResponse) (data : Json)
    (hmem : pkg ∈ pkgs) (hw : w (registryUrl pkg) = .resp r) (hok : r.ok = true)
    (hbody : r.body = .ok data) (hshape : isNpmPackageInfo data = false) :
    npmVersionsItem w pkg = .failure pkg "Invalid package info format" ∧
    (handleNpmVersions w pkgs).isError = false ∧
    (⟨"❌ Error fetching " ++ pkg ++ ": " ++ "Invalid package info format"⟩ : TextContent)
      ∈ (handleNpmVersions w pkgs).content ∧
    (handleNpmPackageReadme w pkgs).isError = true := by
  have hitem : npmVersionsItem w pkg = .failure pkg "Invalid package info format" := by
    simp [npmVersionsItem, hw, hok, hbody, hshape]
  have hread : isExceptError (npmReadmeItem w pkg) = true := by
    simp [npmReadmeItem, hw, hok, hbody, hshape, isExceptError]
  refine ⟨hitem, rfl, ?_, ?_⟩
  · have hmem2 := List.mem_map_of_mem renderVersionsResult
      (List.mem_map_of_mem (npmVersionsItem w) hmem)
    rw [hitem] at hmem2
    simpa [handleNpmVersions, renderVersionsResult] using hmem2
  · have h := collectAll_error_of_mem (npmReadmeItem w) hmem hread
    unfold handleNpmPackageReadme
    cases hq : collectAll (pkgs.map (npmReadmeItem w)) with
    | error m => rfl
    | ok res => rw [hq] at h; simp [isExceptError] at h

/-- C4 witness at `demoWorld` with the shape-violating package
`"badshape"`. -/
theorem shape_mismatch_outcomes_by_handler_witness :
    ("badshape" ∈ ["badshape"] ∧
      demoWorld (registryUrl "badshape") = .resp ⟨true, 200, "OK", .ok badShapeJson⟩ ∧
      isNpmPackageInfo badShapeJson = false) ∧
    (npmVersionsItem demoWorld "badshape" = .failure "badshape" "Invalid package info format" ∧
      (handleNpmVersions demoWorld ["badshape"]).isError = false ∧
      (⟨"❌ Error fetching " ++ "badshape" ++ ": " ++ "Invalid package info format"⟩ : TextContent)
        ∈ (handleNpmVersions demoWorld ["badshape"]).content ∧
      (handleNpmPackageReadme demoWorld ["badshape"]).isError = true) :=
  ⟨⟨by decide, rfl, by decide⟩,
   shape_mismatch_outcomes_by_handler demoWorld ["badshape"] "badshape"
     ⟨true, 200, "OK", .ok badShapeJson⟩ badShapeJson (by decide) rfl rfl rfl (by decide)⟩

/-- C5 counterexample: for two packages where the first succeeds and the
second 404s, `handleNpmTypes` renders no success section at all — the whole
report is one top-level error — contradicting the claim's "one success
section followed by one failure section" for this cited handler. -/
theorem npmTypes_ordered_sections_counterexample :
    handleNpmTypes demoWorld ["good", "bad"] =
      ⟨[⟨"Error checking TypeScript types: Failed to fetch package info: Not Found"⟩], true⟩ := by
  decide

/-- C5 (amended): `handleNpmVersions` renders per-item results in input
order — the i-th content entry is the rendering of the i-th package's
result — and for two packages where the first succeeds and the second fails
the report is exactly one success section followed by one failure section;
for `handleNpmTypes` a 404 aborts the batch instead (see counterexample). -/
theorem sections_preserve_input_order
    (w : World) (pkgs : List String) (i : Nat) (p₁ p₂ : String)
    (h₁ : (npmVersionsItem w p₁).isSuccess = true)
    (h₂ : (npmVersionsItem w p₂).isSuccess = false) :
    (handleNpmVersions w pkgs).content[i]? =
      (pkgs[i]?).map (fun p => renderVersionsResult (npmVersionsItem w p)) ∧
    (∃ vs latest e,
      npmVersionsItem w p₁ = .success p₁ vs latest ∧
      npmVersionsItem w p₂ = .failure p₂ e ∧
      (handleNpmVersions w [p₁, p₂]).content =
        [renderVersionsResult (.success p₁ vs latest),
         renderVersionsResult (.failure p₂ e)]) := by
  constructor
  · simp only [handleNpmVersions, List.getElem?_map, Option.map_map]
    rfl
  · cases hi₁ : npmVersionsItem w p₁ with
    | failure n e => rw [hi₁] at h₁; simp [NpmVersionsResult.isSuccess] at h₁
    | success n vs l =>
      have hn : n = p₁ := by
        have h := npmVersionsItem_pkgName w p₁
        rw [hi₁] at h
        exact h
      subst hn
      cases hi₂ : npmVersionsItem w p₂ with
      | success n₂ vs₂ l₂ => rw [hi₂] at h₂; simp [NpmVersionsResult.isSuccess] at h₂
      | failure n₂ e =>
        have hn₂ : n₂ = p₂ := by
          have h := npmVersionsItem_pkgName w p₂
          rw [hi₂] at h
          exact h
        subst hn₂
        refine ⟨vs, l, e, rfl, rfl, ?_⟩
        simp only [handleNpmVersions, List.map_cons, List.map_nil]
        rw [hi₁, hi₂]

/-- C5 witness at `demoWorld`, index 1, packages `"good"` (succeeds) and
`"bad"` (404s). -/
theorem sections_preserve_input_order_witness :
    ((npmVersionsItem demoWorld "good").isSuccess = true ∧
     (npmVersionsItem demoWorld "bad").isSuccess = false) ∧
    ((handleNpmVersions demoWorld ["good", "bad"]).content[1]? =
      ((["good", "bad"] : List String)[1]?).map
        (fun p => renderVersionsResult (npmVersionsItem demoWorld p)) ∧
     (∃ vs latest e,
        npmVersionsItem demoWorld "good" = .success "good" vs latest ∧
        npmVersionsItem demoWorld "bad" = .failure "bad" e ∧
        (handleNpmVersions demoWorld ["good", "bad"]).content =
          [renderVersionsResult (.success "good" vs latest),
           renderVersionsResult (.failure "bad" e)])) :=
  ⟨⟨by decide, by decide⟩,
   sections_preserve_input_order demoWorld ["good", "bad"] 1 "good" "bad"
     (by decide) (by decide)⟩

/-- C6: dispatch fails with UnknownTool when the name is not registered,
fails with SchemaMismatch — without consulting the handler (replacing every
handler leaves the outcome unchanged) — when the arguments do not satisfy
the declared schema, and invokes the handler only when the name is
registered and the arguments validate. -/
theorem dispatch_unknown_tool_and_schema_mismatch {α : Type}
    (registry : List (ToolDescriptor α)) (name : String) (args : Json)
    (t : ToolDescriptor α) (g : Json → α) :
    (findTool registry name = none → dispatch registry name args = .unknownTool) ∧
    (findTool registry name = some t → t.validate args = false →
      dispatch registry name args = .schemaMismatch ∧
      dispatch (registry.map (setHandler g)) name args = .schemaMismatch) ∧
    (findTool registry name = some t → t.validate args = true →
      dispatch registry name args = .ok (t.handler args)) := by
  refine ⟨?_, ?_, ?_⟩
  · intro h
    simp [dispatch, h]
  · intro h hv
    constructor
    · simp [dispatch, h, hv]
    · simp [dispatch, findTool_map_setHandler, h, setHandler, hv]
  · intro h hv
    simp [dispatch, h, hv]

/-- The registry used by the C6 witness: the `npmVersions` tool with the
argument schema declared at its registration site. -/
def demoRegistry : List (ToolDescriptor Nat) :=
  [{ name := "npmVersions", validate := npmVersionsArgsValid, handler := fun _ => 7 }]

/-- C6 witness: an unregistered name, invalid arguments (a `packages` field
that is not an array of strings), and valid arguments, each dispatched
against `demoRegistry`. -/
theorem dispatch_unknown_tool_and_schema_mismatch_witness :
    (findTool demoRegistry "nope" = none ∧
     npmVersionsArgsValid (Json.obj [("packages", Json.str "x")]) = false ∧
     npmVersionsArgsValid (Json.obj [("packages", Json.arr [Json.str "react"])]) = true) ∧
    (dispatch demoRegistry "nope" (Json.obj []) = .unknownTool ∧
     dispatch demoRegistry "npmVersions" (Json.obj [("packages", Json.str "x")]) =
       .schemaMismatch ∧
     dispatch demoRegistry "npmVersions" (Json.obj [("packages", Json.arr [Json.str "react"])]) =
       .ok 7) := by
  refine ⟨⟨rfl, by decide, by decide⟩, ?_, ?_, ?_⟩
  · exact (dispatch_unknown_tool_and_schema_mismatch demoRegistry "nope" (Json.obj [])
      { name := "npmVersions", validate := npmVersionsArgsValid, handler := fun _ => 7 }
      (fun _ => 7)).1 rfl
  · exact ((dispatch_unknown_tool_and_schema_mismatch demoRegistry "npmVersions"
      (Json.obj [("packages", Json.str "x")])
      { name := "npmVersions", validate := npmVersionsArgsValid, handler := fun _ => 7 }
      (fun _ => 7)).2.1 rfl (by decide)).1
  · exact (dispatch_unknown_tool_and_schema_mismatch demoRegistry "npmVersions"
      (Json.obj [("packages", Json.arr [Json.str "react"])])
      { name := "npmVersions", validate := npmVersionsArgsValid, handler := fun _ => 7 }
      (fun _ => 7)).2.2 rfl (by decide)

/-- C7 counterexample: `handleNpmCompare` takes `packages: string[]` but
issues two outbound requests for a single input package, so the total
request count does not equal the number of input packages. -/
theorem npmCompare_request_count_counterexample :
    (npmCompareRequests ["react"]).length = 2 ∧
    (npmCompareRequests ["react"]).length ≠ (["react"] : List String).length := by decide

/-- C7 (amended): `handleNpmVersions` and `handleNpmLatest` issue exactly
one request per input package (concurrently, no retry), but
`handleNpmCompare` issues exactly two per package, so the one-request-per-
package claim does not hold for every list handler. -/
theorem request_count_per_handler (pkgs : List String) :
    (npmVersionsRequests pkgs).length = pkgs.length ∧
    (npmLatestRequests pkgs).length = pkgs.length ∧
    (npmCompareRequests pkgs).length = 2 * pkgs.length := by
  refine ⟨by simp [npmVersionsRequests], by simp [npmLatestRequests], ?_⟩
  induction pkgs with
  | nil => rfl
  | cons p ps ih =>
    simp only [npmCompareRequests, List.map_cons, List.flatten_cons, List.length_append,
      List.length_cons] at ih ⊢
    simp only [npmCompareItemRequests, List.length_cons, List.length_nil] at ih ⊢
    omega

/-- C8: `handleNpmVersions` and `handleNpmLatest` return `isError = false`
unconditionally — even a world in which every fetch fails only changes the
per-item texts, never the top-level flag — and always render one entry per
input package. -/
theorem versions_latest_top_level_never_error (w : World) (pkgs : List String) :
    (handleNpmVersions w pkgs).isError = false ∧
    (handleNpmLatest w pkgs).isError = false ∧
    (handleNpmVersions w pkgs).content.length = pkgs.length ∧
    (handleNpmLatest w pkgs).content.length = pkgs.length :=
  ⟨rfl, rfl, by simp [handleNpmVersions], by simp [handleNpmLatest]⟩

/-- C9: an omitted or zero `limit` becomes 10: the search URL's `size`
parameter is 10, the report header states "showing top 10", and the whole
response coincides with an explicit `limit = 10` call. -/
theorem search_limit_defaults_to_ten (w : World) (q : String) :
    effectiveSearchLimit none = 10 ∧
    effectiveSearchLimit (some 0) = 10 ∧
    npmSearchRequestUrl "react" none =
      "https://registry.npmjs.org/-/v1/search?text=react&size=10" ∧
    npmSearchHeader "react" 250 (effectiveSearchLimit none) =
      "🔍 Search results for \"react\"\nFound 250 packages (showing top 10)\n\n" ∧
    handleNpmSearch w q none = handleNpmSearch w q (some 10) ∧
    handleNpmSearch w q (some 0) = handleNpmSearch w q (some 10) :=
  ⟨rfl, rfl, by decide, by decide, rfl, rfl⟩

/-- C10: an absent or invalid `period` is replaced by `last-month`
(30 days) — the whole response then coincides with an explicit
`last-month` call — and for every valid period the reported average daily
downloads is within one half of the exact ratio downloads / period-days
(with period-days one of 7, 30, 365), i.e. it is the ratio rounded to the
nearest integer (half up). -/
theorem trends_default_period_and_rounded_average
    (w : World) (pkgs : List String) (p : Option String) (d : ℚ) (period : String)
    (hp : ∀ s, p = some s → validPeriods.contains s = false)
    (hper : validPeriods.contains period = true) :
    effectivePeriod p = "last-month" ∧
    periodDays "last-month" = 30 ∧
    handleNpmTrends w pkgs p = handleNpmTrends w pkgs (some "last-month") ∧
    (periodDays period = 7 ∨ periodDays period = 30 ∨ periodDays period = 365) ∧
    |(npmTrendsAvgDaily d period : ℚ) - d / (periodDays period : ℚ)| ≤ 1/2 := by
  have heff : effectivePeriod p = "last-month" := by
    cases p with
    | none => rfl
    | some s =>
      have hs := hp s rfl
      simp only [effectivePeriod, hs]
      rfl
  have hmemp : period ∈ validPeriods := List.mem_of_elem_eq_true hper
  have hcases : period = "last-week" ∨ period = "last-month" ∨ period = "last-year" := by
    simpa [validPeriods] using hmemp
  refine ⟨heff, rfl, ?_, ?_, ?_⟩
  · have h2 : effectivePeriod (some "last-month") = "last-month" := by decide
    unfold handleNpmTrends
    rw [heff, h2]
  · rcases hcases with h | h | h <;> subst h <;> simp [periodDays]
  · unfold npmTrendsAvgDaily
    exact jsMathRound_close _

/-- C10 witness: the invalid period `"bogus"` defaults to `last-month`, and
for `last-week` with 100 downloads the reported average is within one half
of 100/7. -/
theorem trends_default_period_and_rounded_average_witness :
    ((∀ s, (some "bogus" : Option String) = some s → validPeriods.contains s = false) ∧
     validPeriods.contains "last-week" = true) ∧
    (effectivePeriod (some "bogus") = "last-month" ∧
     periodDays "last-month" = 30 ∧
     handleNpmTrends demoWorld ["a"] (some "bogus") =
       handleNpmTrends demoWorld ["a"] (some "last-month") ∧
     (periodDays "last-week" = 7 ∨ periodDays "last-week" = 30 ∨
       periodDays "last-week" = 365) ∧
     |(npmTrendsAvgDaily 100 "last-week" : ℚ) - 100 / (periodDays "last-week" : ℚ)| ≤ 1/2) :=
  ⟨⟨fun s h => by cases h; decide, by decide⟩,
   trends_default_period_and_rounded_average demoWorld ["a"] (some "bogus") 100 "last-week"
     (fun s h => by cases h; decide) (by decide)⟩
